import Mathlib

/-!
# Verification of the Donut "Async Compute" example

Shallow embedding of `src/examples/async_compute/async_compute.cpp`.

The program is a producer/consumer pipeline: a render thread and a dedicated
compute worker thread exchange ownership of a fixed pool of GPU textures
through two mutex-protected FIFO queues (`TextureQueue`).  GPU-side ordering
is expressed with monotonically increasing execution sequence numbers
returned by command-list submission, and cross-queue waits keyed on them.

Modelling conventions:
* A texture handle (`nvrhi::TextureHandle`) is `Option Nat`: `none` is the
  null handle, `some i` the texture with identity `i`.  The two textures
  created in `Init` get identities `0` and `1`.
* The device (an external collaborator of this file) is modelled per the
  spec's external-interface contract: `executeCommandList` on a queue
  increments that queue's submission counter (starting from 0) and returns
  the new value, so every returned sequence number is positive and `0` means
  "no prior submission".  Cross-queue waits, draws, dispatches, clears and
  binding-set creation are recorded as events in an emitted trace.
* Each queue operation is atomic (it is performed under `m_Mutex` in the
  source).  A render frame is one atomic step; the compute worker iteration
  is split at its two observable phases (pop, then record/submit/push), with
  the local `texture`/`textureLastUse` variables of `AsyncThreadProc`
  exposed as the `workerLocalTexture` field while held between the phases.
* Reads of the `std::atomic_bool m_Terminate` flag are modelled as explicit
  observation parameters (`WorkerObs`), one per read site in
  `AsyncThreadProc`; the flag is only ever set, never cleared, so once a
  read returns `true` all later reads do too.
-/

/-- The two hardware queues used by the example (`nvrhi::CommandQueue`). -/
inductive CommandQueue where
  | Graphics
  | Compute
deriving DecidableEq, Repr

/-- Observable GPU-facing actions emitted while running the code, in program
order.  `queueWait w s n` is `queueWaitForCommandList(w, s, n)`;
`submit q n` is `executeCommandList` on queue `q` returning sequence
number `n`. -/
inductive GpuEvent where
  | queueWait (waiting : CommandQueue) (signaling : CommandQueue) (seq : Nat)
  | clearColor
  | createBindingSet (texture : Option Nat)
  | draw (vertexCount : Nat)
  | dispatch (x : Nat) (y : Nat)
  | submit (queue : CommandQueue) (seq : Nat)
  | runGarbageCollection
deriving DecidableEq, Repr

/-- `class TextureQueue`: a mutex-guarded FIFO of
`(nvrhi::TextureHandle, uint64_t lastUse)` pairs.  The mutex makes each
operation atomic; the queue contents are the list `m_Queue`, front first. -/
structure TextureQueue where
  m_Queue : List (Option Nat × Nat)
deriving DecidableEq, Repr

/-- `TextureQueue::Push`: appends `(texture, lastUse)` at the tail.
Unbounded: it always succeeds. -/
def TextureQueue.Push (q : TextureQueue) (texture : Option Nat) (lastUse : Nat) :
    TextureQueue :=
  ⟨q.m_Queue ++ [(texture, lastUse)]⟩

/-- `TextureQueue::TryPop`: takes the incoming values of the two out-parameters
and returns `(result, queue after, outTexture after, outLastUse after)`.
On an empty queue it returns `false` having changed nothing; otherwise it
swaps the front texture into `outTexture` (the caller's old handle goes into
the front pair, which is immediately popped and dropped), copies the front
`lastUse` into `outLastUse`, and pops the front. -/
def TextureQueue.TryPop (q : TextureQueue) (outTexture : Option Nat)
    (outLastUse : Nat) : Bool × TextureQueue × Option Nat × Nat :=
  match q.m_Queue with
  | [] => (false, q, outTexture, outLastUse)
  | (texture, lastUse) :: rest => (true, ⟨rest⟩, texture, lastUse)

/-- `constexpr size_t NumTextures = 2;` — the fixed texture pool size. -/
def NumTextures : Nat := 2

/-- The mutable state of `class AsyncCompute` relevant to resource
circulation, together with the modelled device-side submission counters.
`workerLocalTexture` holds the `texture`/`textureLastUse` locals of
`AsyncThreadProc` between the pop and the submit of one worker iteration
(the worker holds at most one texture at a time); `counter` is the worker's
`uint32_t` iteration counter. -/
structure SysState where
  m_RenderToComputeQueue : TextureQueue
  m_ComputeToRenderQueue : TextureQueue
  m_CurrentRenderTexture : Option Nat
  m_LastRenderTextureUse : Nat
  workerLocalTexture : Option (Option Nat × Nat)
  graphicsQueueSeq : Nat
  computeQueueSeq : Nat
  counter : Nat
deriving DecidableEq, Repr

/-- The state right after a successful `AsyncCompute::Init`: the two textures
created by the `for` loop have been pushed into the render→compute queue,
each paired with last-use sequence number `0`; everything else is at its
member-initializer default. -/
def initState : SysState where
  m_RenderToComputeQueue := ⟨(List.range NumTextures).map fun i => (some i, 0)⟩
  m_ComputeToRenderQueue := ⟨[]⟩
  m_CurrentRenderTexture := none
  m_LastRenderTextureUse := 0
  workerLocalTexture := none
  graphicsQueueSeq := 0
  computeQueueSeq := 0
  counter := 0

/-- One call of `AsyncCompute::Render` (one frame), returning the new state
and the trace of GPU-facing events in program order.  The local
`nvrhi::TextureHandle newTexture` starts null; `newTextureLastUse` is
uninitialized in the source and only read on the successful-pop path, where
`TryPop` has assigned it (we pass `0` as its indeterminate initial value). -/
def renderFrame (s : SysState) : SysState × List GpuEvent :=
  let popRes := s.m_ComputeToRenderQueue.TryPop none 0
  let popped := popRes.1
  let c2r' := popRes.2.1
  let newTexture0 := popRes.2.2.1
  let newTextureLastUse := popRes.2.2.2
  if popped then
    -- m_CurrentRenderTexture.Swap(newTexture): the popped texture becomes
    -- current, and newTexture now holds the previous current texture.
    let current' := newTexture0
    let prevCurrent := s.m_CurrentRenderTexture
    -- if (newTexture) push it back to the render→compute queue with
    -- m_LastRenderTextureUse
    let r2c' := if prevCurrent.isSome then
        s.m_RenderToComputeQueue.Push prevCurrent s.m_LastRenderTextureUse
      else s.m_RenderToComputeQueue
    let graphicsSeq' := s.graphicsQueueSeq + 1
    ({ s with
        m_ComputeToRenderQueue := c2r'
        m_RenderToComputeQueue := r2c'
        m_CurrentRenderTexture := current'
        m_LastRenderTextureUse := graphicsSeq'
        graphicsQueueSeq := graphicsSeq' },
      [GpuEvent.queueWait .Graphics .Compute newTextureLastUse,
        GpuEvent.clearColor] ++
        (if current'.isSome then
          [GpuEvent.createBindingSet current', GpuEvent.draw 4] else []) ++
        [GpuEvent.submit .Graphics graphicsSeq'])
  else
    let graphicsSeq' := s.graphicsQueueSeq + 1
    ({ s with
        m_LastRenderTextureUse := graphicsSeq'
        graphicsQueueSeq := graphicsSeq' },
      [GpuEvent.clearColor] ++
        (if s.m_CurrentRenderTexture.isSome then
          [GpuEvent.createBindingSet s.m_CurrentRenderTexture, GpuEvent.draw 4]
        else []) ++
        [GpuEvent.submit .Graphics graphicsSeq'])

/-- The record/submit/push phase of one `AsyncThreadProc` iteration, after a
texture with carried last-use `textureLastUse` has been popped: record the
dispatch, enqueue the compute→graphics wait when `textureLastUse > 0`,
submit to the compute queue obtaining a fresh sequence number, push the
texture with that number to the compute→render queue, and bump `counter`
(a `uint32_t`). -/
def workerSubmitPhase (s : SysState) (texture : Option Nat)
    (textureLastUse : Nat) : SysState × List GpuEvent :=
  let computeSeq' := s.computeQueueSeq + 1
  ({ s with
      m_ComputeToRenderQueue := s.m_ComputeToRenderQueue.Push texture computeSeq'
      computeQueueSeq := computeSeq'
      counter := (s.counter + 1) % 2 ^ 32 },
    [GpuEvent.createBindingSet texture, GpuEvent.dispatch 64 64] ++
      (if textureLastUse > 0 then
        [GpuEvent.queueWait .Compute .Graphics textureLastUse] else []) ++
      [GpuEvent.submit .Compute computeSeq'])

/-- The values observed at the three reads of `m_Terminate` inside one pass
of the `AsyncThreadProc` outer loop body: at the `while (!m_Terminate)`
head, during the busy-poll condition (before a successful pop), and at the
`if (m_Terminate) break` check after the poll. -/
structure WorkerObs where
  termAtHead : Bool
  termInPoll : Bool
  termAfterPop : Bool
deriving DecidableEq, Repr

/-- How one pass through the `AsyncThreadProc` loop body ends.
`exitAtHead`/`exitInPoll`: the loop exits (terminate observed) without
having popped.  `exitAfterPop s' held`: a texture was popped but terminate
was observed at the `if (m_Terminate) break` check, so the loop exits with
the popped pair `held` still in the local variables — it is neither
submitted nor returned to a queue.  `spinning`: the poll found the queue
empty and terminate unset, so the busy-poll keeps spinning.  `completed`:
a full iteration ran. -/
inductive WorkerOutcome where
  | exitAtHead
  | exitInPoll
  | exitAfterPop (s' : SysState) (held : Option Nat × Nat)
  | spinning
  | completed (s' : SysState) (events : List GpuEvent)
deriving DecidableEq, Repr

/-- One pass through the body of the `while (!m_Terminate)` loop of
`AsyncThreadProc`, with the terminate-flag reads given by `obs`.  The locals
start as `nvrhi::TextureHandle texture;` (null) and
`uint64_t textureLastUse = 0;`. -/
def workerIteration (s : SysState) (obs : WorkerObs) : WorkerOutcome :=
  if obs.termAtHead then .exitAtHead
  else
    -- m_CommandListLifetimeTracker->runGarbageCollection();
    if obs.termInPoll then .exitInPoll
    else
      let popRes := s.m_RenderToComputeQueue.TryPop none 0
      if popRes.1 then
        if obs.termAfterPop then
          .exitAfterPop { s with m_RenderToComputeQueue := popRes.2.1 }
            (popRes.2.2.1, popRes.2.2.2)
        else
          let sub := workerSubmitPhase
            { s with m_RenderToComputeQueue := popRes.2.1 }
            popRes.2.2.1 popRes.2.2.2
          .completed sub.1 (GpuEvent.runGarbageCollection :: sub.2)
      else .spinning

/-- How the busy-poll `while (!m_Terminate && !m_RenderToComputeQueue.TryPop(...))`
exits: by observing the terminate flag, or by a successful pop. -/
inductive PollExit where
  | terminated
  | popped (texture : Option Nat) (lastUse : Nat) (queueAfter : TextureQueue)
  | stillSpinning
deriving DecidableEq, Repr

/-- The busy-poll loop itself, spin by spin.  Each list element is one spin:
the value read from `m_Terminate` and the queue contents seen by that
spin's `TryPop` (the render thread may push between spins).  The `&&`
short-circuits: the flag is read first on every spin, and if it is `true`
the loop exits without calling `TryPop`.  An exhausted list means the poll
was still spinning when observation stopped. -/
def busyPoll : List (Bool × TextureQueue) → PollExit
  | [] => .stillSpinning
  | (term, q) :: rest =>
    if term then .terminated
    else
      match q.m_Queue with
      | [] => busyPoll rest
      | (texture, lastUse) :: qrest => .popped texture lastUse ⟨qrest⟩

/-- The actions of `AsyncCompute::~AsyncCompute` followed by implicit member
destruction, in execution order: the destructor body sets `m_Terminate` and
joins `m_ComputeThread`; only then does C++ destroy the data members (in
reverse declaration order), releasing the GPU-resource handles. -/
inductive TeardownAction where
  | setTerminateFlag
  | joinComputeThread
  | releaseGpuMember (memberIdx : Nat)
deriving DecidableEq, Repr

/-- The 16 members of `AsyncCompute` that own GPU resources (shaders, binding
layouts, pipelines, binding caches, lifetime tracker, command lists, the
two texture queues, the current render texture, the sampler). -/
def numGpuMembers : Nat := 16

/-- The execution order of `~AsyncCompute`: `m_Terminate = true`, then
`m_ComputeThread.join()`, then the implicit release of every GPU-resource
member. -/
def destructorSequence : List TeardownAction :=
  [TeardownAction.setTerminateFlag, TeardownAction.joinComputeThread] ++
    (List.range numGpuMembers).map TeardownAction.releaseGpuMember

/-- The outcome of `AsyncCompute::Init` as observable to this model: its
return value, how many textures it pushed into the render→compute queue,
and whether it spawned the compute worker thread.  The three
`CreateShader` results are the inputs; shader creation is the only checked
failure, and the check precedes every resource creation, the texture
pushes and the thread spawn. -/
structure InitResult where
  success : Bool
  texturesPushed : Nat
  threadSpawned : Bool
deriving DecidableEq, Repr

/-- `AsyncCompute::Init`, abstracted over whether each of the three
`CreateShader` calls returns a valid handle. -/
def Init (vertexShaderOk pixelShaderOk computeShaderOk : Bool) : InitResult :=
  if vertexShaderOk && pixelShaderOk && computeShaderOk then
    { success := true, texturesPushed := NumTextures, threadSpawned := true }
  else
    { success := false, texturesPushed := 0, threadSpawned := false }

/-- How the process terminates: a normal return from `main` with a status,
or an abnormal termination through `std::terminate` (which kills the
process with `SIGABRT`). -/
inductive ProcessExit where
  | exited (status : Nat)
  | aborted
deriving DecidableEq, Repr

/-- Whether the termination status observed by the parent process is
nonzero.  A normal return reports its status; a process killed by
`std::terminate`/`SIGABRT` never reports status `0`. -/
def ProcessExit.isNonzero : ProcessExit → Bool
  | .exited status => status != 0
  | .aborted => true

/-- The `main` function, abstracted over whether device/window creation
succeeds and over the three `CreateShader` results inside `Init`: returns
how the process terminates and whether `AddRenderPassToBack` was called
(the render pass registered).  If device creation fails, `main` returns
`1` before `example` is constructed.  Otherwise `example.Init()` runs,
and the render pass is registered exactly when it succeeds.  When the
enclosing block ends, `~AsyncCompute` runs: it unconditionally calls
`m_ComputeThread.join()`; if `Init` failed it returned before spawning
the thread, so `join()` is called on a default-constructed, non-joinable
`std::thread` and throws `std::system_error` — destructors are implicitly
`noexcept`, so the exception invokes `std::terminate` and the process
aborts before ever reaching `return 0`. -/
def mainFn (deviceOk vertexShaderOk pixelShaderOk computeShaderOk : Bool) :
    ProcessExit × Bool :=
  if !deviceOk then (.exited 1, false)
  else
    let initRes := Init vertexShaderOk pixelShaderOk computeShaderOk
    if initRes.threadSpawned then (.exited 0, initRes.success)
    else (.aborted, initRes.success)

/-- The interleaved steady-state execution of the two threads, at the
granularity of the atomic queue operations: a whole render frame
(its pop, push-back and submit happen with the worker either before its
pop or after its push, since each queue operation is mutex-atomic and the
worker touches the queues only at those two points), the worker's pop, and
the worker's record/submit/push phase. -/
inductive Step : SysState → SysState → Prop where
  | render (s : SysState) : Step s (renderFrame s).1
  | workerPop (s : SysState) (q' : TextureQueue) (t : Option Nat) (lu : Nat) :
      s.workerLocalTexture = none →
      s.m_RenderToComputeQueue.TryPop none 0 = (true, q', t, lu) →
      Step s { s with m_RenderToComputeQueue := q',
                      workerLocalTexture := some (t, lu) }
  | workerSubmit (s : SysState) (t : Option Nat) (lu : Nat) :
      s.workerLocalTexture = some (t, lu) →
      Step s (workerSubmitPhase { s with workerLocalTexture := none } t lu).1

/-- States reachable from `initState` by steady-state steps. -/
inductive Reachable : SysState → Prop where
  | init : Reachable initState
  | step (s s' : SysState) : Reachable s → Step s s' → Reachable s'

/-- The textures (non-null handles) currently inside a queue. -/
def queueTextures (q : TextureQueue) : Multiset Nat :=
  ↑(q.m_Queue.filterMap Prod.fst)

/-- The texture (if any) in the worker's local variables. -/
def heldTexture : Option (Option Nat × Nat) → Multiset Nat
  | some (t, _) => ↑t.toList
  | none => 0

/-- All textures in the system: both queues, the worker's local, and the
render thread's current display texture. -/
def texMultiset (s : SysState) : Multiset Nat :=
  queueTextures s.m_RenderToComputeQueue + queueTextures s.m_ComputeToRenderQueue +
    heldTexture s.workerLocalTexture + ↑s.m_CurrentRenderTexture.toList

/-- The total number of textures in the system. -/
def texCount (s : SysState) : Nat :=
  (texMultiset s).card

/-- An operation on one `TextureQueue` instance: a `Push` with the given
arguments, or a `TryPop` (out-parameters passed in as a null handle and
`0`, matching both call sites). -/
inductive QueueOp where
  | push (texture : Option Nat) (lastUse : Nat)
  | tryPop
deriving DecidableEq, Repr

/-- Run a sequence of operations on a queue, accumulating the pairs returned
by the successful `TryPop` calls, in order. -/
def runOps : List QueueOp → TextureQueue → List (Option Nat × Nat) →
    TextureQueue × List (Option Nat × Nat)
  | [], q, popped => (q, popped)
  | .push t lu :: rest, q, popped => runOps rest (q.Push t lu) popped
  | .tryPop :: rest, q, popped =>
    let r := q.TryPop none 0
    runOps rest r.2.1 (if r.1 then popped ++ [(r.2.2.1, r.2.2.2)] else popped)

/-- The pairs pushed by a sequence of operations, in push order. -/
def pushedOf : List QueueOp → List (Option Nat × Nat)
  | [] => []
  | .push t lu :: rest => (t, lu) :: pushedOf rest
  | .tryPop :: rest => pushedOf rest

lemma runOps_spec (ops : List QueueOp) (q : TextureQueue)
    (popped : List (Option Nat × Nat)) :
    (runOps ops q popped).2 ++ (runOps ops q popped).1.m_Queue =
      popped ++ q.m_Queue ++ pushedOf ops := by
  induction ops generalizing q popped with
  | nil => simp [runOps, pushedOf]
  | cons op rest ih =>
    cases op with
    | push t lu =>
      simp only [runOps, pushedOf, ih, TextureQueue.Push]
      simp
    | tryPop =>
      rcases q with ⟨⟨⟩ | ⟨⟨t, lu⟩, qrest⟩⟩
      · simp [runOps, pushedOf, TextureQueue.TryPop, ih]
      · simp only [runOps, pushedOf, TextureQueue.TryPop, ih]
        simp

/-- C2: for every sequence of `Push`/`TryPop` operations on one
`TextureQueue` starting empty, the successfully popped pairs followed by
the remaining queue contents are exactly the pushed pairs in push order —
so each successful `TryPop` removes and returns the oldest element still
in the queue (FIFO); moreover `Push` always succeeds, appending its pair
at the tail of any queue, and `TryPop` on an empty queue returns `false`
without removing anything. -/
theorem textureQueue_fifo :
    (∀ ops : List QueueOp,
      (runOps ops ⟨[]⟩ []).2 ++ (runOps ops ⟨[]⟩ []).1.m_Queue = pushedOf ops) ∧
    (∀ (q : TextureQueue) (t : Option Nat) (lu : Nat),
      (q.Push t lu).m_Queue = q.m_Queue ++ [(t, lu)]) ∧
    (∀ (q : TextureQueue) (o : Option Nat) (l : Nat), q.m_Queue = [] →
      q.TryPop o l = (false, q, o, l)) := by
  refine ⟨fun ops => ?_, fun q t lu => rfl, fun q o l h => ?_⟩
  · simpa using runOps_spec ops ⟨[]⟩ []
  · rcases q with ⟨mq⟩
    cases h
    rfl

/-- Witness for C2 at a concrete operation sequence and a concrete empty
queue. -/
theorem textureQueue_fifo_witness :
    (runOps [QueueOp.push (some 5) 1, QueueOp.push (some 7) 2, QueueOp.tryPop]
        ⟨[]⟩ []).2 ++
      (runOps [QueueOp.push (some 5) 1, QueueOp.push (some 7) 2, QueueOp.tryPop]
        ⟨[]⟩ []).1.m_Queue =
      pushedOf [QueueOp.push (some 5) 1, QueueOp.push (some 7) 2,
        QueueOp.tryPop] ∧
    TextureQueue.TryPop ⟨[]⟩ (some 3) 9 = (false, ⟨[]⟩, some 3, 9) :=
  ⟨textureQueue_fifo.1 _, textureQueue_fifo.2.2 ⟨[]⟩ (some 3) 9 rfl⟩

/-- C10: `TryPop` on an empty `TextureQueue` is a no-op: it returns `false`,
leaves the queue unchanged, and leaves both out-parameters (the texture
handle and the last-use sequence number) exactly as they were. -/
theorem tryPop_empty_noop (q : TextureQueue) (outTexture : Option Nat)
    (outLastUse : Nat) (h : q.m_Queue = []) :
    q.TryPop outTexture outLastUse = (false, q, outTexture, outLastUse) := by
  rcases q with ⟨mq⟩
  cases h
  rfl

/-- Witness for C10 on the concrete empty queue with concrete incoming
out-parameter values. -/
theorem tryPop_empty_noop_witness :
    TextureQueue.TryPop ⟨[]⟩ (some 42) 17 = (false, ⟨[]⟩, some 42, 17) :=
  tryPop_empty_noop ⟨[]⟩ (some 42) 17 rfl

/-- C8: if any shader creation fails, `Init` returns `false` before the
compute worker thread is spawned and before any texture is pushed into a
queue; and when `Init` returns `false` the render pass is never
registered with the device manager and the process terminates with a
nonzero status — on the device-creation-failure path by `return 1`, and
on the `Init`-failure path because `~AsyncCompute` calls `join()` on the
never-started thread, whose `std::system_error` escapes the `noexcept`
destructor and aborts the process via `std::terminate` before `return 0`
is reached. -/
theorem init_failure_nonzero_exit (v p c d : Bool)
    (h : (v && p && c) = false) :
    Init v p c = { success := false, texturesPushed := 0,
                   threadSpawned := false } ∧
    (mainFn d v p c).2 = false ∧
    (mainFn d v p c).1.isNonzero = true := by
  have hinit : Init v p c =
      { success := false, texturesPushed := 0, threadSpawned := false } := by
    simp [Init, h]
  refine ⟨hinit, ?_, ?_⟩ <;>
    cases d <;> simp [mainFn, hinit, ProcessExit.isNonzero]

lemma renderFrame_pop (s : SysState) (t : Option Nat) (lu : Nat)
    (rest : List (Option Nat × Nat))
    (h : s.m_ComputeToRenderQueue.m_Queue = (t, lu) :: rest) :
    renderFrame s =
      ({ s with
          m_ComputeToRenderQueue := ⟨rest⟩
          m_RenderToComputeQueue :=
            if s.m_CurrentRenderTexture.isSome then
              s.m_RenderToComputeQueue.Push s.m_CurrentRenderTexture
                s.m_LastRenderTextureUse
            else s.m_RenderToComputeQueue
          m_CurrentRenderTexture := t
          m_LastRenderTextureUse := s.graphicsQueueSeq + 1
          graphicsQueueSeq := s.graphicsQueueSeq + 1 },
        [GpuEvent.queueWait .Graphics .Compute lu, GpuEvent.clearColor] ++
          (if t.isSome then [GpuEvent.createBindingSet t, GpuEvent.draw 4]
            else []) ++
          [GpuEvent.submit .Graphics (s.graphicsQueueSeq + 1)]) := by
  rcases s with ⟨⟨r2cq⟩, ⟨c2rq⟩, cur, lru, wlt, gseq, cseq, cnt⟩
  simp only at h
  subst h
  rfl

lemma renderFrame_empty (s : SysState)
    (h : s.m_ComputeToRenderQueue.m_Queue = []) :
    renderFrame s =
      ({ s with
          m_LastRenderTextureUse := s.graphicsQueueSeq + 1
          graphicsQueueSeq := s.graphicsQueueSeq + 1 },
        [GpuEvent.clearColor] ++
          (if s.m_CurrentRenderTexture.isSome then
            [GpuEvent.createBindingSet s.m_CurrentRenderTexture,
              GpuEvent.draw 4]
          else []) ++
          [GpuEvent.submit .Graphics (s.graphicsQueueSeq + 1)]) := by
  rcases s with ⟨⟨r2cq⟩, ⟨c2rq⟩, cur, lru, wlt, gseq, cseq, cnt⟩
  simp only at h
  subst h
  rfl

lemma workerIteration_run (s : SysState) (t : Option Nat) (lu : Nat)
    (rest : List (Option Nat × Nat))
    (h : s.m_RenderToComputeQueue.m_Queue = (t, lu) :: rest) :
    workerIteration s ⟨false, false, false⟩ =
      .completed
        { s with
            m_RenderToComputeQueue := ⟨rest⟩
            m_ComputeToRenderQueue :=
              s.m_ComputeToRenderQueue.Push t (s.computeQueueSeq + 1)
            computeQueueSeq := s.computeQueueSeq + 1
            counter := (s.counter + 1) % 2 ^ 32 }
        ([GpuEvent.runGarbageCollection, GpuEvent.createBindingSet t,
            GpuEvent.dispatch 64 64] ++
          (if lu > 0 then [GpuEvent.queueWait .Compute .Graphics lu]
            else []) ++
          [GpuEvent.submit .Compute (s.computeQueueSeq + 1)]) := by
  rcases s with ⟨⟨r2cq⟩, ⟨c2rq⟩, cur, lru, wlt, gseq, cseq, cnt⟩
  simp only at h
  subst h
  rfl

/-- C3: when `Render` pops a new texture from the compute→render queue and a
previous display texture existed, it pushes that previous texture back to
the render→compute queue paired with `m_LastRenderTextureUse`; and (for
every frame `s'`) `m_LastRenderTextureUse` always equals the sequence
number returned by that frame's graphics-queue submission, a frame whose
display texture exists binds and draws exactly that texture — so the
recycled pair carries the sequence number of the graphics submission of
the last frame that drew (read) the texture, and the next compute write on
it can wait on the correct graphics submission. -/
theorem render_recycles_with_last_use (s s' : SysState) (t : Option Nat)
    (lu : Nat) (rest : List (Option Nat × Nat))
    (hpop : s.m_ComputeToRenderQueue.m_Queue = (t, lu) :: rest)
    (hcur : s.m_CurrentRenderTexture.isSome = true) :
    (renderFrame s).1.m_RenderToComputeQueue =
      s.m_RenderToComputeQueue.Push s.m_CurrentRenderTexture
        s.m_LastRenderTextureUse ∧
    (renderFrame s').1.m_LastRenderTextureUse = s'.graphicsQueueSeq + 1 ∧
    GpuEvent.submit .Graphics (s'.graphicsQueueSeq + 1) ∈ (renderFrame s').2 ∧
    ((renderFrame s').1.m_CurrentRenderTexture.isSome = true →
      GpuEvent.createBindingSet (renderFrame s').1.m_CurrentRenderTexture ∈
        (renderFrame s').2 ∧
      GpuEvent.draw 4 ∈ (renderFrame s').2) := by
  refine ⟨?_, ?_⟩
  · rw [renderFrame_pop s t lu rest hpop]
    simp [hcur]
  · rcases hq : s'.m_ComputeToRenderQueue.m_Queue with _ | ⟨⟨t', lu'⟩, rest'⟩
    · rw [renderFrame_empty s' hq]
      refine ⟨rfl, by simp, fun hsome => ?_⟩
      simp only at hsome
      simp [hsome]
    · rw [renderFrame_pop s' t' lu' rest' hq]
      refine ⟨rfl, by simp, fun hsome => ?_⟩
      simp only at hsome
      simp [hsome]

/-- Witness for C3: a concrete recycle step (current texture `0`, last used
by graphics submission `3`, texture `1` arriving from compute with
sequence number `5`). -/
theorem render_recycles_with_last_use_witness :
    (renderFrame ⟨⟨[]⟩, ⟨[(some 1, 5)]⟩, some 0, 3, none, 3, 5, 7⟩).1.m_RenderToComputeQueue =
      TextureQueue.Push ⟨[]⟩ (some 0) 3 ∧
    (renderFrame ⟨⟨[]⟩, ⟨[(some 1, 5)]⟩, some 0, 3, none, 3, 5, 7⟩).1.m_LastRenderTextureUse =
      3 + 1 ∧
    GpuEvent.submit .Graphics (3 + 1) ∈
      (renderFrame ⟨⟨[]⟩, ⟨[(some 1, 5)]⟩, some 0, 3, none, 3, 5, 7⟩).2 ∧
    ((renderFrame ⟨⟨[]⟩, ⟨[(some 1, 5)]⟩, some 0, 3, none, 3, 5, 7⟩).1.m_CurrentRenderTexture.isSome = true →
      GpuEvent.createBindingSet
          (renderFrame ⟨⟨[]⟩, ⟨[(some 1, 5)]⟩, some 0, 3, none, 3, 5, 7⟩).1.m_CurrentRenderTexture ∈
        (renderFrame ⟨⟨[]⟩, ⟨[(some 1, 5)]⟩, some 0, 3, none, 3, 5, 7⟩).2 ∧
      GpuEvent.draw 4 ∈
        (renderFrame ⟨⟨[]⟩, ⟨[(some 1, 5)]⟩, some 0, 3, none, 3, 5, 7⟩).2) :=
  render_recycles_with_last_use
    ⟨⟨[]⟩, ⟨[(some 1, 5)]⟩, some 0, 3, none, 3, 5, 7⟩
    ⟨⟨[]⟩, ⟨[(some 1, 5)]⟩, some 0, 3, none, 3, 5, 7⟩
    (some 1) 5 [] rfl rfl

/-- C6: a frame `s` that has never received a texture (current display
texture null) and finds the compute→render queue empty emits only the
clear and the submit — no binding set is created, no draw is recorded —
and leaves the display texture null (`renderFrame` is a total function,
so no fault occurs); a frame `s₁` whose pop returns empty reuses the
current display texture unchanged and, once one exists, draws it; a frame
`s₂` that pops a (non-null) texture draws it that same frame.  Rendering
never blocks: `TryPop` is non-blocking in all cases. -/
theorem render_first_frames_clear_only (s s₁ s₂ : SysState) (t : Option Nat)
    (lu : Nat) (rest : List (Option Nat × Nat))
    (h0 : s.m_CurrentRenderTexture = none)
    (h0q : s.m_ComputeToRenderQueue.m_Queue = [])
    (h1q : s₁.m_ComputeToRenderQueue.m_Queue = [])
    (h2q : s₂.m_ComputeToRenderQueue.m_Queue = (t, lu) :: rest)
    (ht : t.isSome = true) :
    (renderFrame s).2 =
      [GpuEvent.clearColor, GpuEvent.submit .Graphics (s.graphicsQueueSeq + 1)] ∧
    (renderFrame s).1.m_CurrentRenderTexture = none ∧
    (renderFrame s₁).1.m_CurrentRenderTexture = s₁.m_CurrentRenderTexture ∧
    (s₁.m_CurrentRenderTexture.isSome = true →
      GpuEvent.draw 4 ∈ (renderFrame s₁).2) ∧
    GpuEvent.draw 4 ∈ (renderFrame s₂).2 := by
  refine ⟨?_, ?_, ?_, ?_, ?_⟩
  · rw [renderFrame_empty s h0q]
    simp [h0]
  · rw [renderFrame_empty s h0q]
    exact h0
  · rw [renderFrame_empty s₁ h1q]
  · intro hsome
    rw [renderFrame_empty s₁ h1q]
    simp [hsome]
  · rw [renderFrame_pop s₂ t lu rest h2q]
    simp [ht]

/-- Witness for C6: a fresh post-`Init` state for the never-received frame
and the empty-pop frame, and a state with texture `0` arriving for the
pop-success frame. -/
theorem render_first_frames_clear_only_witness :
    (renderFrame initState).2 =
      [GpuEvent.clearColor,
        GpuEvent.submit .Graphics (initState.graphicsQueueSeq + 1)] ∧
    (renderFrame initState).1.m_CurrentRenderTexture = none ∧
    (renderFrame initState).1.m_CurrentRenderTexture =
      initState.m_CurrentRenderTexture ∧
    (initState.m_CurrentRenderTexture.isSome = true →
      GpuEvent.draw 4 ∈ (renderFrame initState).2) ∧
    GpuEvent.draw 4 ∈
      (renderFrame ⟨⟨[]⟩, ⟨[(some 0, 1)]⟩, none, 0, none, 0, 1, 1⟩).2 :=
  render_first_frames_clear_only initState initState
    ⟨⟨[]⟩, ⟨[(some 0, 1)]⟩, none, 0, none, 0, 1, 1⟩
    (some 0) 1 [] rfl rfl rfl rfl rfl

/-- C4: in a compute-worker iteration that pops `(t, lu)` from the
render→compute queue (terminate unset throughout), if `lu` is nonzero the
emitted trace places the compute←graphics cross-queue wait for sequence
number `lu` immediately before the compute submission; if `lu` is zero
the trace is the same without any `queueWait` event. -/
theorem worker_waits_on_prior_graphics_use (s : SysState) (t : Option Nat)
    (lu : Nat) (rest : List (Option Nat × Nat)) (w g : CommandQueue) (n : Nat)
    (hpop : s.m_RenderToComputeQueue.m_Queue = (t, lu) :: rest) :
    (0 < lu →
      workerIteration s ⟨false, false, false⟩ =
        .completed
          { s with
              m_RenderToComputeQueue := ⟨rest⟩
              m_ComputeToRenderQueue :=
                s.m_ComputeToRenderQueue.Push t (s.computeQueueSeq + 1)
              computeQueueSeq := s.computeQueueSeq + 1
              counter := (s.counter + 1) % 2 ^ 32 }
          [GpuEvent.runGarbageCollection, GpuEvent.createBindingSet t,
            GpuEvent.dispatch 64 64,
            GpuEvent.queueWait .Compute .Graphics lu,
            GpuEvent.submit .Compute (s.computeQueueSeq + 1)]) ∧
    (lu = 0 →
      workerIteration s ⟨false, false, false⟩ =
        .completed
          { s with
              m_RenderToComputeQueue := ⟨rest⟩
              m_ComputeToRenderQueue :=
                s.m_ComputeToRenderQueue.Push t (s.computeQueueSeq + 1)
              computeQueueSeq := s.computeQueueSeq + 1
              counter := (s.counter + 1) % 2 ^ 32 }
          [GpuEvent.runGarbageCollection, GpuEvent.createBindingSet t,
            GpuEvent.dispatch 64 64,
            GpuEvent.submit .Compute (s.computeQueueSeq + 1)] ∧
      GpuEvent.queueWait w g n ∉
        ([GpuEvent.runGarbageCollection, GpuEvent.createBindingSet t,
          GpuEvent.dispatch 64 64,
          GpuEvent.submit .Compute (s.computeQueueSeq + 1)] :
            List GpuEvent)) := by
  have h := workerIteration_run s t lu rest hpop
  constructor
  · intro hlu
    rw [h]
    simp [hlu]
  · intro hlu
    subst hlu
    rw [h]
    refine ⟨by simp, by simp⟩

/-- Witness for C4 on two concrete pops: one with carried sequence number
`3` (wait emitted) and one with `0` (no wait). -/
theorem worker_waits_on_prior_graphics_use_witness :
    (0 < 3 →
      workerIteration ⟨⟨[(some 0, 3)]⟩, ⟨[]⟩, some 1, 3, none, 3, 4, 5⟩
          ⟨false, false, false⟩ =
        .completed ⟨⟨[]⟩, ⟨[(some 0, 5)]⟩, some 1, 3, none, 3, 5, 6⟩
          [GpuEvent.runGarbageCollection, GpuEvent.createBindingSet (some 0),
            GpuEvent.dispatch 64 64,
            GpuEvent.queueWait .Compute .Graphics 3,
            GpuEvent.submit .Compute 5]) ∧
    ((0 : Nat) = 0 →
      workerIteration ⟨⟨[(some 1, 0)]⟩, ⟨[]⟩, none, 0, none, 0, 0, 0⟩
          ⟨false, false, false⟩ =
        .completed ⟨⟨[]⟩, ⟨[(some 1, 1)]⟩, none, 0, none, 0, 1, 1⟩
          [GpuEvent.runGarbageCollection, GpuEvent.createBindingSet (some 1),
            GpuEvent.dispatch 64 64, GpuEvent.submit .Compute 1] ∧
      GpuEvent.queueWait .Compute .Graphics 7 ∉
        ([GpuEvent.runGarbageCollection, GpuEvent.createBindingSet (some 1),
          GpuEvent.dispatch 64 64, GpuEvent.submit .Compute 1] :
            List GpuEvent)) :=
  ⟨fun h3 => by
      have h := (worker_waits_on_prior_graphics_use
        ⟨⟨[(some 0, 3)]⟩, ⟨[]⟩, some 1, 3, none, 3, 4, 5⟩
        (some 0) 3 [] .Compute .Graphics 7 rfl).1 h3
      simpa using h,
    fun h0 => by
      have h := (worker_waits_on_prior_graphics_use
        ⟨⟨[(some 1, 0)]⟩, ⟨[]⟩, none, 0, none, 0, 0, 0⟩
        (some 1) 0 [] .Compute .Graphics 7 rfl).2 h0
      simpa using h⟩

/-- C5: every pair in the render→compute queue right after `Init` (which
holds exactly `NumTextures = 2` textures) carries sequence number `0`;
and a completed compute-worker iteration pushes its texture to the
compute→render queue paired with exactly the sequence number returned by
the compute submission it just performed (the last event of its trace),
which is positive, hence nonzero. -/
theorem sequence_number_tagging (s : SysState) (t : Option Nat) (lu : Nat)
    (rest : List (Option Nat × Nat)) (p : Option Nat × Nat)
    (hp : p ∈ initState.m_RenderToComputeQueue.m_Queue)
    (hpop : s.m_RenderToComputeQueue.m_Queue = (t, lu) :: rest) :
    p.2 = 0 ∧
    initState.m_RenderToComputeQueue.m_Queue.length = NumTextures ∧
    workerIteration s ⟨false, false, false⟩ =
      .completed
        { s with
            m_RenderToComputeQueue := ⟨rest⟩
            m_ComputeToRenderQueue :=
              s.m_ComputeToRenderQueue.Push t (s.computeQueueSeq + 1)
            computeQueueSeq := s.computeQueueSeq + 1
            counter := (s.counter + 1) % 2 ^ 32 }
        ([GpuEvent.runGarbageCollection, GpuEvent.createBindingSet t,
            GpuEvent.dispatch 64 64] ++
          (if lu > 0 then [GpuEvent.queueWait .Compute .Graphics lu]
            else []) ++
          [GpuEvent.submit .Compute (s.computeQueueSeq + 1)]) ∧
    0 < s.computeQueueSeq + 1 := by
  refine ⟨?_, rfl, workerIteration_run s t lu rest hpop, Nat.succ_pos _⟩
  have hinit : initState.m_RenderToComputeQueue.m_Queue =
      [(some 0, 0), (some 1, 0)] := rfl
  rw [hinit] at hp
  simp only [List.mem_cons, List.not_mem_nil, or_false] at hp
  rcases hp with h | h <;> rw [h]

/-- Witness for C5: the first startup pair, and a concrete iteration popping
texture `0` with carried sequence number `0`. -/
theorem sequence_number_tagging_witness :
    ((some 0, 0) : Option Nat × Nat).2 = 0 ∧
    initState.m_RenderToComputeQueue.m_Queue.length = NumTextures ∧
    workerIteration ⟨⟨[(some 0, 0)]⟩, ⟨[]⟩, none, 0, none, 0, 0, 0⟩
        ⟨false, false, false⟩ =
      .completed ⟨⟨[]⟩, ⟨[(some 0, 1)]⟩, none, 0, none, 0, 1, 1⟩
        ([GpuEvent.runGarbageCollection, GpuEvent.createBindingSet (some 0),
            GpuEvent.dispatch 64 64] ++
          (if (0 : Nat) > 0 then [GpuEvent.queueWait .Compute .Graphics 0]
            else []) ++
          [GpuEvent.submit .Compute 1]) ∧
    0 < (0 : Nat) + 1 := by
  have h := sequence_number_tagging
    ⟨⟨[(some 0, 0)]⟩, ⟨[]⟩, none, 0, none, 0, 0, 0⟩
    (some 0) 0 [] (some 0, 0) (by decide) rfl
  simpa using h

/-- C9: once the worker observes the terminate flag, it completes no
iteration: (a) with the flag observed at the post-pop check, the pass ends
in `exitAfterPop` — the popped pair is removed from the render→compute
queue, nothing is pushed to the compute→render queue (only the
`m_RenderToComputeQueue` field changes), no event is emitted, and the
texture is left in the dying locals, leaving circulation; (b) for any
state and any observations with the post-pop check reading `true`, the
outcome is never `completed` — no compute submission and no push happen;
(c) with the flag observed during the busy-poll, the pass ends in
`exitInPoll` with nothing popped. -/
theorem worker_terminate_abandons_texture (s sg s₂ s' : SysState)
    (t : Option Nat) (lu : Nat) (rest : List (Option Nat × Nat))
    (obs : WorkerObs) (ev : List GpuEvent) (b : Bool)
    (hpop : s.m_RenderToComputeQueue.m_Queue = (t, lu) :: rest)
    (hobs : obs.termAfterPop = true) :
    workerIteration s ⟨false, false, true⟩ =
      .exitAfterPop { s with m_RenderToComputeQueue := ⟨rest⟩ } (t, lu) ∧
    workerIteration sg obs ≠ .completed s' ev ∧
    workerIteration s₂ ⟨false, true, b⟩ = .exitInPoll := by
  refine ⟨?_, ?_, rfl⟩
  · rcases s with ⟨⟨r2cq⟩, ⟨c2rq⟩, cur, lru, wlt, gseq, cseq, cnt⟩
    simp only at hpop
    subst hpop
    rfl
  · rcases obs with ⟨h1, h2, h3⟩
    simp only at hobs
    subst hobs
    cases h1 <;> cases h2 <;> simp only [workerIteration] <;> try simp
    rcases hq : sg.m_RenderToComputeQueue.m_Queue with _ | ⟨⟨t', lu'⟩, rest'⟩ <;>
      simp [TextureQueue.TryPop, hq]

/-- Witness for C9 on a concrete one-element render→compute queue. -/
theorem worker_terminate_abandons_texture_witness :
    workerIteration ⟨⟨[(some 0, 2)]⟩, ⟨[]⟩, some 1, 2, none, 2, 3, 4⟩
        ⟨false, false, true⟩ =
      .exitAfterPop ⟨⟨[]⟩, ⟨[]⟩, some 1, 2, none, 2, 3, 4⟩ (some 0, 2) ∧
    workerIteration ⟨⟨[(some 0, 2)]⟩, ⟨[]⟩, some 1, 2, none, 2, 3, 4⟩
        ⟨false, false, true⟩ ≠
      .completed ⟨⟨[]⟩, ⟨[]⟩, some 1, 2, none, 2, 3, 4⟩ [] ∧
    workerIteration ⟨⟨[(some 0, 2)]⟩, ⟨[]⟩, some 1, 2, none, 2, 3, 4⟩
        ⟨false, true, true⟩ = .exitInPoll := by
  have h := worker_terminate_abandons_texture
    ⟨⟨[(some 0, 2)]⟩, ⟨[]⟩, some 1, 2, none, 2, 3, 4⟩
    ⟨⟨[(some 0, 2)]⟩, ⟨[]⟩, some 1, 2, none, 2, 3, 4⟩
    ⟨⟨[(some 0, 2)]⟩, ⟨[]⟩, some 1, 2, none, 2, 3, 4⟩
    ⟨⟨[]⟩, ⟨[]⟩, some 1, 2, none, 2, 3, 4⟩
    (some 0) 2 [] ⟨false, false, true⟩ [] true rfl rfl
  simpa using h

/-- C7: with the terminate flag set, (a) the busy-poll exits on its very
first subsequent spin — the `&&` short-circuit reads `m_Terminate` before
attempting `TryPop`, so one flag check bounds the remaining spins; (b) the
outer loop's head check exits the loop immediately, whatever the other
reads would have returned; and (c) in the destructor's execution order,
`m_ComputeThread.join()` runs after `m_Terminate = true` and before every
release of a GPU-resource member, so no in-flight unsynchronized
submission can reference a resource being destroyed. -/
theorem shutdown_terminates_before_release (term : Bool) (q : TextureQueue)
    (spins : List (Bool × TextureQueue)) (s : SysState) (o1 o2 : Bool)
    (k : Nat) (hterm : term = true) (hk : k < numGpuMembers) :
    busyPoll ((term, q) :: spins) = .terminated ∧
    workerIteration s ⟨true, o1, o2⟩ = .exitAtHead ∧
    destructorSequence.indexOf TeardownAction.setTerminateFlag <
      destructorSequence.indexOf TeardownAction.joinComputeThread ∧
    destructorSequence.indexOf TeardownAction.joinComputeThread <
      destructorSequence.indexOf (TeardownAction.releaseGpuMember k) := by
  subst hterm
  refine ⟨rfl, rfl, by decide, ?_⟩
  have hk16 : k < 16 := hk
  interval_cases k <;> decide

/-- Witness for C7: flag set, a one-spin poll, arbitrary concrete state, and
GPU member `0`. -/
theorem shutdown_terminates_before_release_witness :
    busyPoll ((true, ⟨[]⟩) :: []) = .terminated ∧
    workerIteration initState ⟨true, false, false⟩ = .exitAtHead ∧
    destructorSequence.indexOf TeardownAction.setTerminateFlag <
      destructorSequence.indexOf TeardownAction.joinComputeThread ∧
    destructorSequence.indexOf TeardownAction.joinComputeThread <
      destructorSequence.indexOf (TeardownAction.releaseGpuMember 0) :=
  shutdown_terminates_before_release true ⟨[]⟩ [] initState false false 0
    rfl (by decide)

lemma texMultiset_renderFrame (s : SysState) :
    texMultiset (renderFrame s).1 = texMultiset s := by
  rcases hq : s.m_ComputeToRenderQueue.m_Queue with _ | ⟨⟨t, lu⟩, rest⟩
  · rw [renderFrame_empty s hq]
    rfl
  · rw [renderFrame_pop s t lu rest hq]
    rcases s with ⟨⟨r2cq⟩, ⟨c2rq⟩, cur, lru, wlt, gseq, cseq, cnt⟩
    simp only at hq
    subst hq
    rcases cur with _ | c <;> rcases t with _ | x <;>
      simp [texMultiset, queueTextures, heldTexture, TextureQueue.Push,
        List.filterMap_cons, List.filterMap_append] <;>
      simp only [← Multiset.coe_add, ← Multiset.cons_coe,
        ← Multiset.singleton_add, Multiset.coe_nil] <;>
      abel

lemma texMultiset_step (s s' : SysState) (hs : Step s s') :
    texMultiset s' = texMultiset s := by
  cases hs with
  | render => exact texMultiset_renderFrame s
  | workerPop q' t lu hw hpop =>
    rcases s with ⟨⟨r2cq⟩, ⟨c2rq⟩, cur, lru, wlt, gseq, cseq, cnt⟩
    simp only at hw
    subst hw
    rcases r2cq with _ | ⟨⟨a, b⟩, rest⟩
    · simp [TextureQueue.TryPop] at hpop
    · simp only [TextureQueue.TryPop, Prod.mk.injEq] at hpop
      obtain ⟨hq', ht, hlu⟩ := hpop.2
      subst hq'
      subst ht
      subst hlu
      rcases a with _ | x <;>
        simp [texMultiset, queueTextures, heldTexture,
          List.filterMap_cons] <;>
        simp only [← Multiset.coe_add, ← Multiset.cons_coe,
          ← Multiset.singleton_add, Multiset.coe_nil] <;>
        abel
  | workerSubmit t lu hw =>
    rcases s with ⟨⟨r2cq⟩, ⟨c2rq⟩, cur, lru, wlt, gseq, cseq, cnt⟩
    simp only at hw
    subst hw
    rcases t with _ | x <;>
      simp [workerSubmitPhase, texMultiset, queueTextures, heldTexture,
        TextureQueue.Push, List.filterMap_append, List.filterMap_cons] <;>
      simp only [← Multiset.coe_add, ← Multiset.cons_coe,
        ← Multiset.singleton_add, Multiset.coe_nil] <;>
      abel

/-- C1: in every steady-state reachable state, the multiset of textures in
the system is exactly the startup pool `{0, 1}` — textures in the
render→compute queue, plus those in the compute→render queue, plus the
at-most-one held in the compute worker's iteration locals, plus the
at-most-one current display texture of the render loop — and their total
number is the fixed pool size `2`.  Since every step preserves this
multiset, no render-loop, worker or queue operation creates, duplicates
or destroys a texture. -/
theorem texture_pool_conserved (s : SysState) (h : Reachable s) :
    texMultiset s = {0, 1} ∧ texCount s = 2 := by
  induction h with
  | init => exact ⟨by decide, by decide⟩
  | step s₀ s₁ hr hs ih =>
    have hm := texMultiset_step s₀ s₁ hs
    refine ⟨hm.trans ih.1, ?_⟩
    rw [texCount, hm.trans ih.1]
    decide

/-- Witness for C1 at the initial (post-`Init`) state. -/
theorem texture_pool_conserved_witness :
    texMultiset initState = {0, 1} ∧ texCount initState = 2 :=
  texture_pool_conserved initState Reachable.init

/-- Witness for C8: device creation succeeds and only the compute shader
fails — the pass is unregistered and the process terminates abnormally
(nonzero status). -/
theorem init_failure_nonzero_exit_witness :
    Init true true false = { success := false, texturesPushed := 0,
                             threadSpawned := false } ∧
    (mainFn true true true false).2 = false ∧
    (mainFn true true true false).1.isNonzero = true :=
  init_failure_nonzero_exit true true false true rfl
